import Mathlib

/-!
# Verification of the Fincil debate-orchestration backend

A shallow embedding, in Lean 4, of the deterministic core of the Fincil
repository (`backend/crew_agent.py`, `backend/main.py`, `backend/config.py`):

* the finance evaluator inlined in `run_fincil_crew` (surplus normalization,
  triviality / cash / education-loan / EMI classification),
* the persona instruction generator `get_role_context`,
* the utterance producer `safe_kickoff` together with `clean_output` and
  `get_fallback_response` (the external text-generation backend is abstracted
  as an oracle of per-attempt outcomes),
* the debate loop of `run_fincil_crew` (bounded rounds, referee gate,
  consensus detection, judge override),
* `extract_verdict` and the decision-execution path `execute_decision` of
  `main.py` (the two external stores become explicit state).

Money values are modelled as rationals (`ℚ`): the Python code computes with
floats, and every claim checked here is decided at inputs where the float and
the exact-rational computations agree.  Python string primitives
(`str.lower`, `str.strip`, `str.split`, substring `in`) are given explicit
executable models on `List Char`.
-/

namespace Fincil

/-! ## Python string primitives -/

/-- `needle` occurs as a contiguous substring of `hay` (Python's `in`). -/
def hasSub (needle : List Char) : List Char → Bool
  | [] => needle.isEmpty
  | c :: rest => needle.isPrefixOf (c :: rest) || hasSub needle rest

/-- Python `needle in hay` on strings. -/
def strIn (needle hay : String) : Bool := hasSub needle.toList hay.toList

/-- Python `s.lower()` (ASCII). -/
def lowerStr (s : String) : String := String.mk (s.toList.map Char.toLower)

/-- Python `s.upper()` (ASCII). -/
def upperStr (s : String) : String := String.mk (s.toList.map Char.toUpper)

/-- Python whitespace, as used by `str.strip()` and `str.split()`. -/
def isPySpace (c : Char) : Bool :=
  c = ' ' || c = '\t' || c = '\n' || c = '\r' || c = '\x0b' || c = '\x0c'

/-- Python `s.strip()`. -/
def pyStrip (s : String) : String :=
  String.mk (((s.toList.dropWhile isPySpace).reverse.dropWhile isPySpace).reverse)

/-- Helper for `pyWordCount`: counts maximal nonempty runs of non-space
characters; the flag records whether we are inside such a run. -/
def countWordsAux : Bool → List Char → ℕ
  | _, [] => 0
  | inWord, c :: cs =>
    if isPySpace c then countWordsAux false cs
    else (if inWord then 0 else 1) + countWordsAux true cs

/-- Python `len(s.split())`. -/
def pyWordCount (s : String) : ℕ := countWordsAux false s.toList

/-! ## Numeric rendering

The Python code interpolates floats into strings with `f"...{x}"`,
`f"{x:.0f}"`, `f"{x:.1f}"` and `f"{x:,.2f}"`.  The renderings below realize
those format specifiers on the exact rational value. -/

/-- Rendering of the exact rational standing in for a bare `{x}`
interpolation. -/
def showQ (q : ℚ) : String :=
  if q.den = 1 then toString q.num else toString q.num ++ "/" ++ toString q.den

/-- `f"{q:.0f}"`: round to an integer. -/
def fmt0 (q : ℚ) : String := toString (round q)

/-- `f"{q:.1f}"` for a nonnegative value: one decimal digit. -/
def fmt1 (q : ℚ) : String :=
  toString (round (q * 10) / 10) ++ "." ++ toString (round (q * 10) % 10).natAbs

/-- Insert a `','` after every third digit of a reversed digit list. -/
def groupRev : List Char → List Char
  | a :: b :: c :: tail =>
    if tail.isEmpty then [a, b, c] else a :: b :: c :: ',' :: groupRev tail
  | l => l

/-- `f"{q:,.2f}"`: two decimals, thousands separators. -/
def fmt2c (q : ℚ) : String :=
  let n : ℤ := round (q * 100)
  let sign := if n < 0 then "-" else ""
  let m := n.natAbs
  let frac := m % 100
  sign ++ String.mk ((groupRev (toString (m / 100)).toList.reverse).reverse)
    ++ "." ++ (if frac < 10 then "0" else "") ++ toString frac

/-! ## Data model

`user_profiles` rows reach the Python code as dicts; an absent or null
field read through `profile.get(key, d) or 0` / `profile.get('role', d)`
is modelled with `Option` plus the read's default. -/

/-- A user-profile row as the debate engine and the decision executor read
it (`crew_agent.py` lines 109–112, `main.py` lines 158–160). -/
structure Profile where
  monthly_income : Option ℚ
  monthly_expenses : Option ℚ
  role : Option String
deriving DecidableEq, Repr

/-- One debate-transcript entry: `{"agent": ..., "content": ...}`. -/
structure TurnEntry where
  agent : String
  content : String
deriving DecidableEq, Repr

/-! ## Finance evaluator

The deterministic "FINANCE ENGINE" block inlined at the top of
`run_fincil_crew` (`crew_agent.py` lines 109–158).  The result record
carries every intermediate the Python block binds; `impact?` registers
whether the EMI-path division by `surplus` was actually performed (`some`)
or the sentinel `999` was used instead (`none`) — Python line 149:
`emi_impact_percent = (estimated_emi / surplus * 100) if surplus > 0 else 999`. -/

/-- `edu_keywords` of `crew_agent.py` line 124. -/
def edu_keywords : List String :=
  ["course", "degree", "college", "tuition", "study",
   "university", "school", "mba", "masters"]

/-- Result of the finance-engine block. -/
structure FinanceFacts where
  user_role : String
  raw_surplus : ℚ
  surplus : ℚ
  is_trivial : Bool
  is_education_loan : Bool
  can_pay_cash : Bool
  estimated_emi : ℚ
  impact? : Option ℚ
  emi_safety : String
  math_verdict : String
deriving DecidableEq, Repr

/-- The `if is_trivial ... elif can_pay_cash ... elif is_education_loan ...
else` chain of lines 139–158, producing
`(impact?, emi_safety, math_verdict)`. -/
def classify_math (surplus estimated_emi amount : ℚ)
    (is_trivial can_pay_cash is_education_loan : Bool) : Option ℚ × String × String :=
  if is_trivial then
    (none, "SAFE", "MICRO-TRANSACTION. Cost is negligible. Pay Cash.")
  else if can_pay_cash then
    (none, "SAFE",
      "CASH PURCHASE. Affordable upfront. Surplus (₹" ++ showQ surplus
        ++ ") > Price (₹" ++ showQ amount ++ ").")
  else if is_education_loan then
    (none, "DEFERRED",
      "EDUCATION LOAN. Deferred Payment. Immediate Bankruptcy Check: BYPASSED.")
  else
    let impact? : Option ℚ :=
      if 0 < surplus then some (estimated_emi / surplus * 100) else none
    let emi_impact_percent := impact?.getD 999
    if 100 < emi_impact_percent then
      (impact?, "DANGEROUS",
        "IMPOSSIBLE. EMI (₹" ++ fmt0 estimated_emi ++ ") > Surplus (₹"
          ++ showQ surplus ++ ").")
    else if 50 < emi_impact_percent then
      (impact?, "RISKY",
        "HIGH RISK. EMI is " ++ fmt1 emi_impact_percent ++ "% of monthly surplus.")
    else
      (impact?, "SAFE",
        "AFFORDABLE. EMI is " ++ fmt1 emi_impact_percent ++ "% of surplus.")

/-- `crew_agent.py` lines 109–158: surplus + student normalizer, trivial
check, education-loan check, loan calculations, and the
`math_verdict`/`emi_safety` classification chain. -/
def finance_engine (query : String) (profile : Profile) (amount : ℚ) : FinanceFacts :=
  let monthly_income := profile.monthly_income.getD 0
  let monthly_expenses := profile.monthly_expenses.getD 0
  let raw_surplus := monthly_income - monthly_expenses
  let user_role := lowerStr (profile.role.getD "General")
  -- 1. Student Logic Normalizer
  let surplus :=
    if strIn "student" user_role then
      if raw_surplus < 0 then 0
      else if raw_surplus = 0 then 1000
      else raw_surplus
    else raw_surplus
  -- 2. Trivial Check
  let is_trivial :=
    decide (amount < 1000) || (decide (0 < surplus) && decide (amount < surplus * (5 / 100)))
  -- 3. Education Loan Check
  let is_education_purchase := edu_keywords.any fun word => strIn word (lowerStr query)
  let is_education_loan :=
    strIn "student" user_role && is_education_purchase && decide (surplus < amount)
  -- 4. Loan Calculations
  let interest_rate : ℚ := 15 / 100
  let tenure_months : ℚ := 12
  let total_interest := amount * interest_rate
  let estimated_emi := (amount + total_interest) / tenure_months
  let can_pay_cash := decide (amount ≤ surplus)
  let cls := classify_math surplus estimated_emi amount is_trivial can_pay_cash is_education_loan
  ⟨user_role, raw_surplus, surplus, is_trivial, is_education_loan, can_pay_cash,
    estimated_emi, cls.1, cls.2.1, cls.2.2⟩

/-! ## Persona instruction generator (`get_role_context`, lines 79–104) -/

/-- `(miser_trigger, visionary_trigger)` for a role and risk classification. -/
def get_role_context (role : String) (emi_safety : String) (is_education_loan : Bool) :
    String × String :=
  let role := lowerStr role
  if is_education_loan then
    ("User is a STUDENT (Education Loan). Critique the DEBT BURDEN only.",
     "User is a STUDENT. Future Career ROI > Current Debt. Fight for it.")
  else if emi_safety = "DANGEROUS" then
    ("MATH ALERT: EMI > Surplus. IMPOSSIBLE. You MUST REJECT.",
     "MATH ALERT: EMI > Surplus. You MUST CONCEDE.")
  else if strIn "freelance" role || strIn "business" role then
    ("User is a FREELANCER. Income varies. Check for backup funds.",
     "User is a FREELANCER. Business Tool = Profit. Fight for it.")
  else if strIn "student" role then
    ("User is a STUDENT. No income. Debt is highly risky.",
     "User is a STUDENT. Skills are assets. Small EMI is okay.")
  else
    ("User is an EMPLOYEE. Prioritize savings.",
     "User is an EMPLOYEE. Invest in productivity.")

/-! ## Utterance producer

`safe_kickoff` (`crew_agent.py` lines 33–66) wraps every
`crew_instance.kickoff()` round-trip.  The external generation backend is
abstracted as an oracle `outcomes : ℕ → KickoffOutcome` giving, per attempt
number, either the raw text the backend returned or the exception it raised
(classified by whether `"rate limit"`/`"429"` occurs in its message).  The
run record keeps, besides the returned string, how many kickoff calls were
made and the `time.sleep` durations performed, in order. -/

/-- `FALLBACK_RESPONSES` / `get_fallback_response` (lines 21–30): a dict
lookup with a default, written out key by key. -/
def get_fallback_response (agent_type : String) : String :=
  let k := lowerStr agent_type
  if k = "miser" then
    "I urge extreme caution here. Every rupee spent is a rupee that cannot be saved or invested for your future security."
  else if k = "visionary" then
    "Consider the potential return on this investment. Strategic spending today can unlock growth and opportunities tomorrow."
  else if k = "referee" then "CONTINUE"
  else if k = "twin" then
    "Based on the financial data presented, I recommend careful consideration of the math before making a final decision."
  else "I need more context to provide advice."

/-- Split a character list at every occurrence of `sep` (Python
`text.split(sep)` for a one-character separator). -/
def splitOnChar (sep : Char) : List Char → List (List Char)
  | [] => [[]]
  | c :: cs =>
    let r := splitOnChar sep cs
    if c = sep then [] :: r
    else match r with
      | [] => [[c]]
      | h :: t => (c :: h) :: t

/-- A line matched by `clean_output`'s markers:
`(?m)^(Thought|Action|Observation):.*$` or `(?m)^Title:.*$`. -/
def is_marker_line (l : List Char) : Bool :=
  "Thought:".toList.isPrefixOf l || "Action:".toList.isPrefixOf l
    || "Observation:".toList.isPrefixOf l || "Title:".toList.isPrefixOf l

/-- `clean_output` (lines 69–76): blank out marker lines, strip, and return
`none` for a falsy input or an empty result. -/
def clean_output (text : String) : Option String :=
  if text = "" then none
  else
    let kept := (splitOnChar '\n' text.toList).map fun l => if is_marker_line l then [] else l
    let cleaned := pyStrip (String.mk (List.intercalate ['\n'] kept))
    if cleaned = "" then none else some cleaned

/-- One backend attempt: the raw `kickoff().raw` text, or an exception
(`rate_limited` = the message contained `"rate limit"` or `"429"`). -/
inductive KickoffOutcome where
  | ok (raw : String)
  | err (rate_limited : Bool)
deriving DecidableEq, Repr

/-- What one `safe_kickoff` invocation did. -/
structure KickoffRun where
  result : String
  calls : ℕ
  waits : List ℕ
deriving DecidableEq, Repr

/-- The retry loop of `safe_kickoff`, lines 40–66.  `attempt` is the 0-based
loop index; `fuel` the remaining iterations of `range(max_retries)`. -/
def safe_kickoff_go (outcomes : ℕ → KickoffOutcome) (agent_type : String) (min_words : ℕ) :
    ℕ → ℕ → KickoffRun
  | _, 0 => ⟨get_fallback_response agent_type, 0, []⟩
  | attempt, fuel + 1 =>
    match outcomes attempt with
    | .ok raw =>
      match clean_output raw with
      | some cleaned =>
        if min_words ≤ pyWordCount cleaned then ⟨cleaned, 1, []⟩
        else
          -- Empty or too short - log and retry (time.sleep(1); continue)
          let r := safe_kickoff_go outcomes agent_type min_words (attempt + 1) fuel
          ⟨r.result, r.calls + 1, 1 :: r.waits⟩
      | none =>
        let r := safe_kickoff_go outcomes agent_type min_words (attempt + 1) fuel
        ⟨r.result, r.calls + 1, 1 :: r.waits⟩
    | .err rate_limited =>
      if rate_limited then
        -- wait_time = 5 * (attempt + 1); time.sleep(wait_time)
        let r := safe_kickoff_go outcomes agent_type min_words (attempt + 1) fuel
        ⟨r.result, r.calls + 1, 5 * (attempt + 1) :: r.waits⟩
      else
        -- any other error: return fallback immediately
        ⟨get_fallback_response agent_type, 1, []⟩

/-- `safe_kickoff(crew, agent_type, min_words)`: `max_retries = 5`. -/
def safe_kickoff (outcomes : ℕ → KickoffOutcome) (agent_type : String) (min_words : ℕ) :
    KickoffRun :=
  safe_kickoff_go outcomes agent_type min_words 0 5

/-! ## Debate loop (`run_fincil_crew`, lines 250–343)

Each `safe_kickoff(Crew(...))` call site is numbered by a running turn
counter; the oracle `gen : ℕ → ℕ → KickoffOutcome` gives the outcome
function of the `n`-th call.  The referee's output steers the loop but is
never appended to `debate_transcript`. -/

/-- The string a turn contributes: the validated/cleaned backend output or
the persona fallback. -/
def produce (gen : ℕ → ℕ → KickoffOutcome) (turn_no : ℕ) (agent_type : String)
    (min_words : ℕ) : String :=
  (safe_kickoff (gen turn_no) agent_type min_words).result

/-- State returned by the `while round_count < max_rounds` loop. -/
structure LoopState where
  entries : List TurnEntry
  consensus_reached : Bool
  round_count : ℕ
  turn_no : ℕ
  referee_checks : ℕ
deriving DecidableEq, Repr

/-- The debate `while` loop (lines 259–316).  `rc`/`tn` thread
`round_count` and the turn counter; `fuel` is `max_rounds - rc`. -/
def debate_loop (gen : ℕ → ℕ → KickoffOutcome) (is_trivial : Bool) (emi_safety : String) :
    ℕ → ℕ → ℕ → LoopState
  | rc, tn, 0 => ⟨[], false, rc, tn, 0⟩
  | rc, tn, fuel + 1 =>
    let round_count := rc + 1
    let msg_m := produce gen tn "miser" 5
    let msg_v := produce gen (tn + 1) "visionary" 5
    let pair : List TurnEntry := [⟨"miser", msg_m⟩, ⟨"visionary", msg_v⟩]
    -- REFEREE CHECK gate: `if emi_safety == "DANGEROUS" or is_trivial: pass
    -- elif round_count < 2: continue`
    if !(emi_safety == "DANGEROUS" || is_trivial) && decide (round_count < 2) then
      let r := debate_loop gen is_trivial emi_safety round_count (tn + 2) fuel
      ⟨pair ++ r.entries, r.consensus_reached, r.round_count, r.turn_no, r.referee_checks⟩
    else
      let status := upperStr (produce gen (tn + 2) "referee" 1)
      if strIn "WINNER" status then
        let final_text :=
          if strIn "MISER" status then "REJECTED. The financial risk is too high."
          else "APPROVED. The Council agrees this is a safe and wise purchase."
        ⟨pair ++ [⟨"twin", final_text⟩], true, round_count, tn + 3, 1⟩
      else
        let r := debate_loop gen is_trivial emi_safety round_count (tn + 3) fuel
        ⟨pair ++ r.entries, r.consensus_reached, r.round_count, r.turn_no,
          r.referee_checks + 1⟩

/-- Everything `run_fincil_crew` computes. -/
structure CrewRun where
  facts : FinanceFacts
  miser_instr : String
  vis_instr : String
  max_rounds : ℕ
  loop : LoopState
  transcript : List TurnEntry
deriving Repr

/-- `run_fincil_crew` (lines 107–343): finance engine, persona
instructions (with appeal-context injection), bounded debate loop, and the
Twin tie-breaker appended when no consensus was reached. -/
def run_fincil_crew_run (gen : ℕ → ℕ → KickoffOutcome) (query : String) (profile : Profile)
    (amount : ℚ) (appeal_context : Option String) (is_appeal : Bool) : CrewRun :=
  let facts := finance_engine query profile amount
  let instrs := get_role_context facts.user_role facts.emi_safety facts.is_education_loan
  let appeal_suffix := fun (instr ctx : String) =>
    instr ++ "\n\n" ++ ctx ++ "\n\nYou MUST reconsider your position based on this new evidence."
  let instrs :=
    -- `if is_appeal and appeal_context:` — a None or empty string is falsy
    match is_appeal, appeal_context with
    | true, some ctx =>
      if ctx = "" then instrs else (appeal_suffix instrs.1 ctx, appeal_suffix instrs.2 ctx)
    | _, _ => instrs
  let max_rounds := if facts.is_trivial then 2 else 5
  let ls := debate_loop gen facts.is_trivial facts.emi_safety 0 0 max_rounds
  let transcript :=
    if ls.consensus_reached then ls.entries
    else ls.entries ++ [⟨"twin", produce gen ls.turn_no "twin" 5⟩]
  ⟨facts, instrs.1, instrs.2, max_rounds, ls, transcript⟩

/-- The value `run_fincil_crew` returns to its caller. -/
def run_fincil_crew (gen : ℕ → ℕ → KickoffOutcome) (query : String) (profile : Profile)
    (amount : ℚ) (appeal_context : Option String) (is_appeal : Bool) : List TurnEntry :=
  (run_fincil_crew_run gen query profile amount appeal_context is_appeal).transcript

/-! ## Verdict extraction (`main.py` lines 287–300) -/

/-- `extract_verdict(transcript)`: keyword test on `transcript[-1]` only. -/
def extract_verdict (transcript : List TurnEntry) : String :=
  match transcript.getLast? with
  | none => "UNKNOWN"
  | some last_msg =>
    let content := upperStr last_msg.content
    if strIn "REJECT" content || strIn "BLOCKED" content || strIn "DENIED" content then
      "REJECTED"
    else if strIn "APPROV" content || strIn "SAFE" content || strIn "WISE" content then
      "APPROVED"
    else "UNKNOWN"

/-- Modelled from the spec: "ConsensusVerdict … derived by scanning
transcript content for verdict keywords; UNKNOWN when no decisive signal
found" — a scan over the given entries' contents, rejection keywords
first. -/
def verdict_keyword_scan (entries : List TurnEntry) : String :=
  if entries.any fun e =>
      strIn "REJECT" (upperStr e.content) || strIn "BLOCKED" (upperStr e.content)
        || strIn "DENIED" (upperStr e.content) then "REJECTED"
  else if entries.any fun e =>
      strIn "APPROV" (upperStr e.content) || strIn "SAFE" (upperStr e.content)
        || strIn "WISE" (upperStr e.content) then "APPROVED"
  else "UNKNOWN"

/-- The last entry of a transcript as a (possibly empty) scan window. -/
def last_entry_window (entries : List TurnEntry) : List TurnEntry :=
  match entries.getLast? with
  | none => []
  | some e => [e]

/-! ## Decision execution (`main.py` lines 147–275)

`execute_decision` touches two external stores: the `transactions` ledger
(insert, line 236) and the `user_profiles` row (update, line 263).  Both
become explicit state.  The embedding keeps the fields of the inserted row
the Python code computes itself; `transaction_date` and `embedding` come
from external services and are omitted. -/

/-- `config.py`: `INTEREST_RATE = 0.15`. -/
def INTEREST_RATE : ℚ := 15 / 100

/-- `config.py`: `EDU_KEYWORDS`. -/
def EDU_KEYWORDS : List String :=
  ["degree", "course", "college", "tuition", "study",
   "university", "school", "mba", "masters"]

/-- The body of a `TransactionRequest`. -/
structure ExecRequest where
  description : String
  amount : ℚ
  category : String
deriving DecidableEq, Repr

/-- A row of the `transactions` ledger as `execute_decision` builds it. -/
structure TransactionRow where
  amount : ℚ
  description : String
  category : String
  source : String
deriving DecidableEq, Repr

/-- The two stores `execute_decision` reads and writes. -/
structure ExecState where
  transactions : List TransactionRow
  profile : Profile
deriving DecidableEq, Repr

/-- What the endpoint returns: the success JSON, or the `HTTPException`
that reaches the caller (status code and detail). -/
inductive ExecOutcome where
  | success (message : String) (deducted_amount : ℚ)
  | error (status : ℕ) (detail : String)
deriving DecidableEq, Repr

/-- Is the outcome an error? -/
def ExecOutcome.isError : ExecOutcome → Bool
  | .success _ _ => false
  | .error _ _ => true

/-- The SMART PAYMENT LOGIC tree (`main.py` lines 165–213): what gets
deducted, the ledger description, and whether the purchase was deferred. -/
structure DeductionPlan where
  deducted_amount : ℚ
  final_description : String
  is_deferred : Bool
deriving DecidableEq, Repr

/-- `main.py` lines 165–213. -/
def deduction_plan (req : ExecRequest) (st : ExecState) : DeductionPlan :=
  let current_expenses := st.profile.monthly_expenses.getD 0
  let monthly_income := st.profile.monthly_income.getD 0
  let user_role := lowerStr (st.profile.role.getD "general")
  let current_surplus := monthly_income - current_expenses
  let is_education := EDU_KEYWORDS.any fun kw => strIn kw (lowerStr req.description)
  if req.amount ≤ current_surplus then
    -- CASE A: CASH (Affordable)
    ⟨req.amount, req.description ++ " (Cash)", false⟩
  else if strIn "student" user_role && is_education then
    -- CASE B: STUDENT DEFERRED LOAN
    ⟨0, req.description ++ " (DEFERRED LOAN: ₹" ++ showQ req.amount ++ ")", true⟩
  else
    -- CASE C: STANDARD EMI
    let total_cost := req.amount * (1 + INTEREST_RATE)
    let emi := total_cost / 12
    -- lines 201-211: both branches of `if emi > current_surplus` assign emi
    let deducted := if current_surplus < emi then emi else emi
    ⟨deducted, req.description ++ " (EMI: ₹" ++ fmt0 emi ++ "/mo)", false⟩

/-- The ledger row inserted at line 236: `amount = -abs(deducted_amount)`,
category swapped to "Liabilities" for a deferred purchase. -/
def ledger_row (req : ExecRequest) (st : ExecState) : TransactionRow :=
  let plan := deduction_plan req st
  ⟨-|plan.deducted_amount|, plan.final_description,
    (if plan.is_deferred then "Liabilities" else req.category), "logged"⟩

/-- `execute_decision` (lines 147–275).  The transaction insert precedes
the negative-surplus check; an `HTTPException(400, ...)` raised there is
caught by the surrounding `except Exception` handler and re-raised as a
500 whose detail is `str(e) = "400: <detail>"`. -/
def execute_decision (req : ExecRequest) (st : ExecState) : ExecOutcome × ExecState :=
  let current_expenses := st.profile.monthly_expenses.getD 0
  let monthly_income := st.profile.monthly_income.getD 0
  let plan := deduction_plan req st
  let st1 : ExecState := { st with transactions := st.transactions ++ [ledger_row req st] }
  let new_expenses := current_expenses + plan.deducted_amount
  let new_surplus := monthly_income - new_expenses
  if new_surplus < 0 then
    let available_surplus := monthly_income - current_expenses
    let shortfall := |new_surplus|
    let error_msg :=
      "Insufficient funds to complete this transaction. Available surplus: ₹"
        ++ fmt2c available_surplus ++ ", Required amount: ₹"
        ++ fmt2c plan.deducted_amount ++ ", Shortfall: ₹" ++ fmt2c shortfall
        ++ ". Please adjust the purchase amount or add more income."
    (.error 500 ("400: " ++ error_msg), st1)
  else
    (.success ("Transaction logged: " ++ plan.final_description) plan.deducted_amount,
      { st1 with profile := { st1.profile with monthly_expenses := some new_expenses } })

/-! ## Model-side helpers and concrete inputs

The remaining definitions are not translations of source lines: they are
the vocabulary the theorems below are stated in (validation predicate,
per-agent entry counting) and the concrete profiles, requests and oracles
at which witnesses and counterexamples evaluate the model. -/

/-- Lines 47–53 of `safe_kickoff`, negated: the cleaned output does not
count as a valid response (it is `None`, or below the word minimum). -/
def validation_fails : Option String → ℕ → Bool
  | none, _ => true
  | some c, min_words => decide (pyWordCount c < min_words)

/-- How many transcript entries are authored by `a`. -/
def countAgent (es : List TurnEntry) (a : String) : ℕ :=
  es.countP fun e => e.agent == a

/-- An all-zero profile with a non-student role: surplus 0. -/
def pGeneral0 : Profile := ⟨some 0, some 0, some "general"⟩

/-- A non-student profile with a large surplus (100000). -/
def pRich : Profile := ⟨some 100000, some 0, some "general"⟩

/-- The §8 scenario-10 profile: income 30000, expenses 28000, surplus 2000. -/
def pDev : Profile := ⟨some 30000, some 28000, some "developer"⟩

/-- A student profile with negative raw surplus (1000 − 2000). -/
def pStud : Profile := ⟨some 1000, some 2000, some "Student"⟩

/-- A generation backend that always raises a non-rate-limit error. -/
def genFail : ℕ → ℕ → KickoffOutcome := fun _ _ => .err false

/-- The transcript refuting C9 as stated: a rejection keyword occurs in the
transcript (first entry) but not in the last entry. -/
def tCex : List TurnEntry :=
  [⟨"miser", "I REJECT this."⟩, ⟨"twin", "The debate continues."⟩]

/-- The concrete rejected purchase: surplus 100, amount 5000 on EMI, so the
deducted EMI (5750/12 ≈ 479.17) exceeds the surplus. -/
def reqW : ExecRequest := ⟨"buy laptop", 5000, "Gadgets"⟩

/-- Ledger/profile state for the C10 witness. -/
def stW : ExecState := ⟨[], ⟨some 1000, some 900, some "general"⟩⟩

/-! ## Projection lemmas for the finance engine -/

theorem fe_user_role (q : String) (p : Profile) (a : ℚ) :
    (finance_engine q p a).user_role = lowerStr (p.role.getD "General") := rfl

theorem fe_raw_surplus (q : String) (p : Profile) (a : ℚ) :
    (finance_engine q p a).raw_surplus
      = p.monthly_income.getD 0 - p.monthly_expenses.getD 0 := rfl

theorem fe_surplus (q : String) (p : Profile) (a : ℚ) :
    (finance_engine q p a).surplus
      = (if strIn "student" (lowerStr (p.role.getD "General")) then
          if (finance_engine q p a).raw_surplus < 0 then 0
          else if (finance_engine q p a).raw_surplus = 0 then 1000
          else (finance_engine q p a).raw_surplus
         else (finance_engine q p a).raw_surplus) := rfl

theorem fe_is_trivial (q : String) (p : Profile) (a : ℚ) :
    (finance_engine q p a).is_trivial
      = (decide (a < 1000)
          || (decide (0 < (finance_engine q p a).surplus)
              && decide (a < (finance_engine q p a).surplus * (5 / 100)))) := rfl

theorem fe_is_education_loan (q : String) (p : Profile) (a : ℚ) :
    (finance_engine q p a).is_education_loan
      = (strIn "student" (lowerStr (p.role.getD "General"))
          && (edu_keywords.any fun word => strIn word (lowerStr q))
          && decide ((finance_engine q p a).surplus < a)) := rfl

theorem fe_can_pay_cash (q : String) (p : Profile) (a : ℚ) :
    (finance_engine q p a).can_pay_cash = decide (a ≤ (finance_engine q p a).surplus) := rfl

theorem fe_estimated_emi (q : String) (p : Profile) (a : ℚ) :
    (finance_engine q p a).estimated_emi = (a + a * (15 / 100)) / 12 := rfl

theorem fe_impact (q : String) (p : Profile) (a : ℚ) :
    (finance_engine q p a).impact?
      = (classify_math (finance_engine q p a).surplus (finance_engine q p a).estimated_emi a
          (finance_engine q p a).is_trivial (finance_engine q p a).can_pay_cash
          (finance_engine q p a).is_education_loan).1 := rfl

theorem fe_emi_safety (q : String) (p : Profile) (a : ℚ) :
    (finance_engine q p a).emi_safety
      = (classify_math (finance_engine q p a).surplus (finance_engine q p a).estimated_emi a
          (finance_engine q p a).is_trivial (finance_engine q p a).can_pay_cash
          (finance_engine q p a).is_education_loan).2.1 := rfl

theorem fe_math_verdict (q : String) (p : Profile) (a : ℚ) :
    (finance_engine q p a).math_verdict
      = (classify_math (finance_engine q p a).surplus (finance_engine q p a).estimated_emi a
          (finance_engine q p a).is_trivial (finance_engine q p a).can_pay_cash
          (finance_engine q p a).is_education_loan).2.2 := rfl

/-! ## C4: the triviality boundary -/

theorem pGeneral0_surplus (q : String) (a : ℚ) :
    (finance_engine q pGeneral0 a).surplus = 0 := by
  have h : strIn "student" (lowerStr (pGeneral0.role.getD "General")) = false := by decide
  rw [fe_surplus, fe_raw_surplus, h]
  simp [pGeneral0]

/-- **C4.**  The Finance Evaluator marks a purchase trivial exactly when
`amount < 1000` or (`surplus > 0` and `amount < 5% of surplus`), where
`surplus` is the (student-normalized) surplus the evaluator computes; at
surplus 0 the boundary is exact: amount 999 is trivial, amount 1000 is
not. -/
theorem C4_triviality_boundary :
    (∀ (q : String) (p : Profile) (a : ℚ),
      (finance_engine q p a).is_trivial
        = (decide (a < 1000)
            || (decide (0 < (finance_engine q p a).surplus)
                && decide (a < (finance_engine q p a).surplus * (5 / 100)))))
    ∧ (finance_engine "coffee" pGeneral0 999).is_trivial = true
    ∧ (finance_engine "coffee" pGeneral0 1000).is_trivial = false := by
  refine ⟨fun q p a => fe_is_trivial q p a, ?_, ?_⟩
  · rw [fe_is_trivial, pGeneral0_surplus]
    norm_num
  · rw [fe_is_trivial, pGeneral0_surplus]
    norm_num

/-- **C5 counterexample.**  For role `"student-freelancer"` with a
non-DANGEROUS, non-DEFERRED classification, `get_role_context` returns the
freelancer instruction pair, not the student pair the claim requires: the
`"freelance"` substring check comes first in the source. -/
theorem C5_cex_freelancer_pair_returned :
    get_role_context "student-freelancer" "SAFE" false
        = ("User is a FREELANCER. Income varies. Check for backup funds.",
           "User is a FREELANCER. Business Tool = Profit. Fight for it.")
      ∧ get_role_context "student-freelancer" "SAFE" false
          ≠ ("User is a STUDENT. No income. Debt is highly risky.",
             "User is a STUDENT. Skills are assets. Small EMI is okay.") := by
  constructor
  · decide
  · decide

/-- **C5 (amended).**  For role `"student-freelancer"` and any
classification that is neither DEFERRED nor DANGEROUS, the Persona
Instruction Generator returns the freelancer (cash-flow-instability)
instruction pair: the `"freelance"`/`"business"` substring match takes
priority over the `"student"` substring match. -/
theorem C5_freelance_priority (emi_safety : String) (h : emi_safety ≠ "DANGEROUS") :
    get_role_context "student-freelancer" emi_safety false
      = ("User is a FREELANCER. Income varies. Check for backup funds.",
         "User is a FREELANCER. Business Tool = Profit. Fight for it.") := by
  have hf : (strIn "freelance" (lowerStr "student-freelancer")
      || strIn "business" (lowerStr "student-freelancer")) = true := by decide
  simp [get_role_context, hf, h]

theorem C5_freelance_priority_witness :
    get_role_context "student-freelancer" "SAFE" false
      = ("User is a FREELANCER. Income varies. Check for backup funds.",
         "User is a FREELANCER. Business Tool = Profit. Fight for it.") :=
  C5_freelance_priority "SAFE" (by decide)

/-! ## C9: verdict extraction -/

/-- **C9 counterexample.**  A rejection keyword is found in the transcript
(the spec-worded scan over all entries says REJECTED), yet `extract_verdict`
returns UNKNOWN: the code scans only the last entry. -/
theorem C9_cex_scan_not_whole_transcript :
    strIn "REJECT" (upperStr (tCex.headD ⟨"", ""⟩).content) = true
      ∧ verdict_keyword_scan tCex = "REJECTED"
      ∧ extract_verdict tCex = "UNKNOWN" := by
  refine ⟨by decide, by decide, by decide⟩

/-- **C9 (amended).**  The consensus verdict is derived by scanning only the
last transcript entry's content for verdict keywords (rejection keywords
first, then approval keywords, else UNKNOWN; an empty transcript yields
UNKNOWN). -/
theorem C9_last_entry_scan (t : List TurnEntry) :
    extract_verdict t = verdict_keyword_scan (last_entry_window t) := by
  cases h : t.getLast? with
  | none => simp [extract_verdict, verdict_keyword_scan, last_entry_window, h]
  | some e =>
    simp only [extract_verdict, verdict_keyword_scan, last_entry_window, h,
      List.any_cons, List.any_nil, Bool.or_false]

/-! ## C3: education-loan bypass precedence -/

/-- **C3.**  For a profile whose (lowercased) role contains `"student"`, a
query containing one of the education keywords, and a non-trivial amount
strictly greater than the (normalized) surplus, the Finance Evaluator
classifies the purchase DEFERRED with the education-loan justification —
the EMI math is never reached. -/
theorem C3_education_loan_precedence (q : String) (p : Profile) (a : ℚ)
    (h1 : strIn "student" (finance_engine q p a).user_role = true)
    (h2 : (edu_keywords.any fun word => strIn word (lowerStr q)) = true)
    (h3 : (finance_engine q p a).is_trivial = false)
    (h4 : (finance_engine q p a).surplus < a) :
    (finance_engine q p a).emi_safety = "DEFERRED"
      ∧ (finance_engine q p a).math_verdict
          = "EDUCATION LOAN. Deferred Payment. Immediate Bankruptcy Check: BYPASSED." := by
  rw [fe_user_role] at h1
  have hcash : (finance_engine q p a).can_pay_cash = false := by
    rw [fe_can_pay_cash, decide_eq_false_iff_not]
    exact not_le.mpr h4
  have hedu : (finance_engine q p a).is_education_loan = true := by
    rw [fe_is_education_loan, h1, h2]
    simp [h4]
  refine ⟨?_, ?_⟩
  · rw [fe_emi_safety]
    simp [classify_math, h3, hcash, hedu]
  · rw [fe_math_verdict]
    simp [classify_math, h3, hcash, hedu]

theorem pStud_surplus (q : String) (a : ℚ) :
    (finance_engine q pStud a).surplus = 0 := by
  have h : strIn "student" (lowerStr (pStud.role.getD "General")) = true := by decide
  rw [fe_surplus, fe_raw_surplus, h]
  simp [pStud]
  norm_num

theorem C3_witness :
    (finance_engine "pay tuition" pStud 50000).emi_safety = "DEFERRED"
      ∧ (finance_engine "pay tuition" pStud 50000).math_verdict
          = "EDUCATION LOAN. Deferred Payment. Immediate Bankruptcy Check: BYPASSED." :=
  C3_education_loan_precedence "pay tuition" pStud 50000
    (by rw [fe_user_role]; decide)
    (by decide)
    (by rw [fe_is_trivial, pStud_surplus]; norm_num)
    (by rw [pStud_surplus]; norm_num)

/-! ## C6: division safety -/

/-- **C6.**  The Finance Evaluator never divides by zero: for roles
containing `"student"` a negative raw surplus is clamped to 0 and an
exactly-zero raw surplus is floored to 1000; the EMI impact division is
performed (`impact? = some _`) only when the surplus is strictly positive,
and for surplus ≤ 0 no division happens and the sentinel 999 stands in for
the impact. -/
theorem C6_no_division_by_zero (q : String) (p : Profile) (a : ℚ) :
    (strIn "student" (finance_engine q p a).user_role = true →
        (finance_engine q p a).surplus
          = (if (finance_engine q p a).raw_surplus < 0 then 0
             else if (finance_engine q p a).raw_surplus = 0 then 1000
             else (finance_engine q p a).raw_surplus))
    ∧ ((finance_engine q p a).surplus ≤ 0 →
        (finance_engine q p a).impact? = none
          ∧ ((finance_engine q p a).impact?).getD 999 = 999)
    ∧ ∀ x : ℚ, (finance_engine q p a).impact? = some x →
        0 < (finance_engine q p a).surplus := by
  refine ⟨?_, ?_, ?_⟩
  · intro h
    rw [fe_user_role] at h
    rw [fe_surplus, h]
    simp
  · intro h
    have himp : (finance_engine q p a).impact? = none := by
      rw [fe_impact]
      simp only [classify_math]
      split_ifs with h1 h2 h3 h4 <;>
        first
          | rfl
          | exact absurd ‹0 < (finance_engine q p a).surplus› (not_lt.mpr h)
    exact ⟨himp, by rw [himp]; rfl⟩
  · intro x hx
    rw [fe_impact] at hx
    simp only [classify_math] at hx
    split_ifs at hx <;> simp_all

theorem C6_witness :
    (finance_engine "buy a camera" pStud 2000).surplus
        = (if (finance_engine "buy a camera" pStud 2000).raw_surplus < 0 then 0
           else if (finance_engine "buy a camera" pStud 2000).raw_surplus = 0 then 1000
           else (finance_engine "buy a camera" pStud 2000).raw_surplus)
      ∧ (finance_engine "buy a camera" pStud 2000).impact? = none
      ∧ 0 < (finance_engine "buy a new laptop" pDev 20000).surplus :=
  ⟨(C6_no_division_by_zero "buy a camera" pStud 2000).1 (by rw [fe_user_role]; decide),
   ((C6_no_division_by_zero "buy a camera" pStud 2000).2.1 (by rw [pStud_surplus])).1,
   (C6_no_division_by_zero "buy a new laptop" pDev 20000).2.2 (575 / 6)
     (by
      have hsur : (finance_engine "buy a new laptop" pDev 20000).surplus = 2000 := by
        have h : strIn "student" (lowerStr (pDev.role.getD "General")) = false := by decide
        rw [fe_surplus, fe_raw_surplus, h]
        simp [pDev]
        norm_num
      rw [fe_impact, fe_estimated_emi, hsur]
      have htriv : (finance_engine "buy a new laptop" pDev 20000).is_trivial = false := by
        rw [fe_is_trivial, hsur]
        norm_num
      have hcash : (finance_engine "buy a new laptop" pDev 20000).can_pay_cash = false := by
        rw [fe_can_pay_cash, hsur]
        norm_num
      have hedu : (finance_engine "buy a new laptop" pDev 20000).is_education_loan = false := by
        have h : strIn "student" (lowerStr (pDev.role.getD "General")) = false := by decide
        rw [fe_is_education_loan, h]
        simp
      rw [htriv, hcash, hedu]
      simp only [classify_math]
      norm_num)⟩

/-! ## C8: the RISKY end-to-end scenario -/

theorem pDev_surplus (q : String) (a : ℚ) :
    (finance_engine q pDev a).surplus = 2000 := by
  have h : strIn "student" (lowerStr (pDev.role.getD "General")) = false := by decide
  rw [fe_surplus, fe_raw_surplus, h]
  simp [pDev]
  norm_num

theorem fmt1_95_8 : fmt1 (575 / 6 : ℚ) = "95.8" := by
  have hr : round ((575 : ℚ) / 6 * 10) = 958 := by norm_num [round_eq]
  rw [fmt1, hr]
  decide

/-- **C8.**  For income 30000, expenses 28000 (surplus 2000), a non-student
role, a non-education query and amount 20000, the evaluator computes
EMI = (20000 × 1.15)/12 = 23000/12, an impact of 575/6 % (≈ 95.83 %) of the
surplus, classifies the purchase RISKY, and the justification reports the
impact rounded to one decimal: it contains "95.8%". -/
theorem C8_risky_scenario :
    (finance_engine "buy a new laptop" pDev 20000).estimated_emi = 23000 / 12
      ∧ (finance_engine "buy a new laptop" pDev 20000).impact? = some (575 / 6)
      ∧ (finance_engine "buy a new laptop" pDev 20000).emi_safety = "RISKY"
      ∧ strIn "95.8%" (finance_engine "buy a new laptop" pDev 20000).math_verdict = true := by
  have hsur := pDev_surplus "buy a new laptop" 20000
  have htriv : (finance_engine "buy a new laptop" pDev 20000).is_trivial = false := by
    rw [fe_is_trivial, hsur]
    norm_num
  have hcash : (finance_engine "buy a new laptop" pDev 20000).can_pay_cash = false := by
    rw [fe_can_pay_cash, hsur]
    norm_num
  have hedu : (finance_engine "buy a new laptop" pDev 20000).is_education_loan = false := by
    have h : strIn "student" (lowerStr (pDev.role.getD "General")) = false := by decide
    rw [fe_is_education_loan, h]
    simp
  have hemi : (finance_engine "buy a new laptop" pDev 20000).estimated_emi = 23000 / 12 := by
    rw [fe_estimated_emi]
    norm_num
  have h0 : (if (0 : ℚ) < 2000 then some ((23000 : ℚ) / 12 / 2000 * 100) else none)
      = some ((575 : ℚ) / 6) := by
    rw [if_pos (by norm_num)]
    norm_num
  refine ⟨hemi, ?_, ?_, ?_⟩
  · rw [fe_impact, hsur, hemi, htriv, hcash, hedu]
    simp only [classify_math]
    rw [h0]
    norm_num
  · rw [fe_emi_safety, hsur, hemi, htriv, hcash, hedu]
    simp only [classify_math]
    rw [h0]
    norm_num
  · have hmv : (finance_engine "buy a new laptop" pDev 20000).math_verdict
        = "HIGH RISK. EMI is " ++ fmt1 (575 / 6) ++ "% of monthly surplus." := by
      rw [fe_math_verdict, hsur, hemi, htriv, hcash, hedu]
      simp only [classify_math]
      rw [h0]
      norm_num
    rw [hmv, fmt1_95_8]
    decide

/-! ## C7: the utterance producer's retry policy -/

theorem get_fallback_response_ne (agent_type : String) :
    get_fallback_response agent_type ≠ "" := by
  simp only [get_fallback_response]
  split_ifs <;> decide

theorem clean_output_ne (t c : String) (h : clean_output t = some c) : c ≠ "" := by
  simp only [clean_output] at h
  split_ifs at h with h1 h2
  intro hc
  subst hc
  exact h2 (Option.some.inj h)

theorem safe_kickoff_go_calls (o : ℕ → KickoffOutcome) (a : String) (m : ℕ) :
    ∀ (fuel i : ℕ), (safe_kickoff_go o a m i fuel).calls ≤ fuel := by
  intro fuel
  induction fuel with
  | zero => intro i; simp [safe_kickoff_go]
  | succ fuel ih =>
    intro i
    cases h : o i with
    | ok raw =>
      cases hc : clean_output raw with
      | none =>
        simp only [safe_kickoff_go, h, hc]
        exact Nat.succ_le_succ (ih (i + 1))
      | some c =>
        simp only [safe_kickoff_go, h, hc]
        split_ifs
        · exact Nat.succ_le_succ (Nat.zero_le fuel)
        · exact Nat.succ_le_succ (ih (i + 1))
    | err rl =>
      cases rl
      · simp only [safe_kickoff_go, h]
        exact Nat.succ_le_succ (Nat.zero_le fuel)
      · simp only [safe_kickoff_go, h]
        exact Nat.succ_le_succ (ih (i + 1))

theorem safe_kickoff_go_result (o : ℕ → KickoffOutcome) (a : String) (m : ℕ) :
    ∀ (fuel i : ℕ),
      (safe_kickoff_go o a m i fuel).result = get_fallback_response a
        ∨ ∃ (j : ℕ) (raw c : String), o j = .ok raw ∧ clean_output raw = some c
            ∧ m ≤ pyWordCount c ∧ (safe_kickoff_go o a m i fuel).result = c := by
  intro fuel
  induction fuel with
  | zero => intro i; exact Or.inl rfl
  | succ fuel ih =>
    intro i
    cases h : o i with
    | ok raw =>
      cases hc : clean_output raw with
      | none =>
        simp only [safe_kickoff_go, h, hc]
        exact ih (i + 1)
      | some c =>
        simp only [safe_kickoff_go, h, hc]
        split_ifs with hw
        · exact Or.inr ⟨i, raw, c, h, hc, hw, rfl⟩
        · exact ih (i + 1)
    | err rl =>
      cases rl
      · simp only [safe_kickoff_go, h]
        exact Or.inl rfl
      · simp only [safe_kickoff_go, h]
        exact ih (i + 1)

theorem produce_ne (gen : ℕ → ℕ → KickoffOutcome) (tn : ℕ) (a : String) (m : ℕ) :
    produce gen tn a m ≠ "" := by
  rcases safe_kickoff_go_result (gen tn) a m 5 0 with h | ⟨j, raw, c, _, hc, _, h⟩
  · rw [produce, safe_kickoff, h]
    exact get_fallback_response_ne a
  · rw [produce, safe_kickoff, h]
    exact clean_output_ne raw c hc

/-- **C7.**  `safe_kickoff` makes at most 5 attempts; a rate-limit failure
at (0-based) attempt `i` sleeps `5 × (i+1)` seconds and retries; any other
failure immediately returns the persona fallback; an invalid (empty or
too-short) cleaned output is retried with a 1-second sleep; and the result
is always either the fallback or a cleaned output meeting the word
minimum — a too-short answer is never returned as success. -/
theorem C7_retry_policy (o : ℕ → KickoffOutcome) (a : String) (m : ℕ) :
    ((safe_kickoff o a m).calls ≤ 5)
    ∧ (∀ (i fuel : ℕ), o i = .err true →
        safe_kickoff_go o a m i (fuel + 1)
          = ⟨(safe_kickoff_go o a m (i + 1) fuel).result,
             (safe_kickoff_go o a m (i + 1) fuel).calls + 1,
             5 * (i + 1) :: (safe_kickoff_go o a m (i + 1) fuel).waits⟩)
    ∧ (∀ (i fuel : ℕ), o i = .err false →
        safe_kickoff_go o a m i (fuel + 1) = ⟨get_fallback_response a, 1, []⟩)
    ∧ (∀ (i fuel : ℕ) (raw : String), o i = .ok raw →
        validation_fails (clean_output raw) m = true →
        safe_kickoff_go o a m i (fuel + 1)
          = ⟨(safe_kickoff_go o a m (i + 1) fuel).result,
             (safe_kickoff_go o a m (i + 1) fuel).calls + 1,
             1 :: (safe_kickoff_go o a m (i + 1) fuel).waits⟩)
    ∧ ((safe_kickoff o a m).result = get_fallback_response a
        ∨ ∃ (j : ℕ) (raw c : String), o j = .ok raw ∧ clean_output raw = some c
            ∧ m ≤ pyWordCount c ∧ (safe_kickoff o a m).result = c) := by
  refine ⟨safe_kickoff_go_calls o a m 5 0, ?_, ?_, ?_,
    safe_kickoff_go_result o a m 5 0⟩
  · intro i fuel h
    simp [safe_kickoff_go, h]
  · intro i fuel h
    simp [safe_kickoff_go, h]
  · intro i fuel raw h hv
    cases hc : clean_output raw with
    | none => simp [safe_kickoff_go, h, hc]
    | some c =>
      rw [hc] at hv
      simp only [validation_fails, decide_eq_true_eq] at hv
      simp [safe_kickoff_go, h, hc, Nat.not_le.mpr hv]

theorem C7_witness :
    ((safe_kickoff (fun _ => .err true) "miser" 5).calls ≤ 5)
    ∧ (safe_kickoff_go (fun _ => .err true) "miser" 5 0 5
        = ⟨(safe_kickoff_go (fun _ => .err true) "miser" 5 1 4).result,
           (safe_kickoff_go (fun _ => .err true) "miser" 5 1 4).calls + 1,
           5 * 1 :: (safe_kickoff_go (fun _ => .err true) "miser" 5 1 4).waits⟩)
    ∧ (safe_kickoff_go (fun _ => .err false) "twin" 5 0 5
        = ⟨get_fallback_response "twin", 1, []⟩)
    ∧ (safe_kickoff_go (fun _ => .ok "hi") "twin" 5 0 5
        = ⟨(safe_kickoff_go (fun _ => .ok "hi") "twin" 5 1 4).result,
           (safe_kickoff_go (fun _ => .ok "hi") "twin" 5 1 4).calls + 1,
           1 :: (safe_kickoff_go (fun _ => .ok "hi") "twin" 5 1 4).waits⟩)
    ∧ ((safe_kickoff (fun _ => .err false) "twin" 5).result
          = get_fallback_response "twin"
        ∨ ∃ (j : ℕ) (raw c : String), (fun _ => KickoffOutcome.err false) j = .ok raw
            ∧ clean_output raw = some c ∧ 5 ≤ pyWordCount c
            ∧ (safe_kickoff (fun _ => .err false) "twin" 5).result = c) :=
  ⟨(C7_retry_policy (fun _ => .err true) "miser" 5).1,
   (C7_retry_policy (fun _ => .err true) "miser" 5).2.1 0 4 rfl,
   (C7_retry_policy (fun _ => .err false) "twin" 5).2.2.1 0 4 rfl,
   (C7_retry_policy (fun _ => .ok "hi") "twin" 5).2.2.2.1 0 4 "hi" rfl (by decide),
   (C7_retry_policy (fun _ => .err false) "twin" 5).2.2.2.2⟩

/-! ## C10: the rejected path of execute_decision is not atomic -/

/-- **C10.**  When the prospective new surplus
(`monthly_income − (current_expenses + deducted_amount)`) is negative,
`execute_decision` returns an error and leaves `monthly_expenses`
unchanged — but the transaction row has already been inserted into the
ledger before the check runs, so the ledger still gains exactly that row. -/
theorem C10_rejection_not_atomic (req : ExecRequest) (st : ExecState)
    (h : st.profile.monthly_income.getD 0
        - (st.profile.monthly_expenses.getD 0 + (deduction_plan req st).deducted_amount)
          < 0) :
    ((execute_decision req st).1).isError = true
      ∧ ((execute_decision req st).2).profile.monthly_expenses
          = st.profile.monthly_expenses
      ∧ ((execute_decision req st).2).transactions
          = st.transactions ++ [ledger_row req st] := by
  simp only [execute_decision]
  rw [if_pos h]
  exact ⟨rfl, rfl, rfl⟩

theorem reqW_deducted : (deduction_plan reqW stW).deducted_amount = 5750 / 12 := by
  have hrole : (strIn "student" (lowerStr (stW.profile.role.getD "general"))
      && EDU_KEYWORDS.any fun kw => strIn kw (lowerStr reqW.description)) = false := by
    decide
  simp only [deduction_plan]
  rw [if_neg (by simp [reqW, stW]; norm_num), if_neg (by rw [hrole]; simp)]
  simp [reqW, stW, INTEREST_RATE]
  norm_num

theorem C10_witness :
    ((execute_decision reqW stW).1).isError = true
      ∧ ((execute_decision reqW stW).2).profile.monthly_expenses
          = stW.profile.monthly_expenses
      ∧ ((execute_decision reqW stW).2).transactions
          = stW.transactions ++ [ledger_row reqW stW] :=
  C10_rejection_not_atomic reqW stW
    (by rw [reqW_deducted]; simp [stW]; norm_num)

/-! ## Debate-loop invariants (towards C1 and C2) -/

/-- Both fixed consensus sentences are nonempty. -/
theorem final_text_ne (c : Prop) [Decidable c] :
    (if c then "REJECTED. The financial risk is too high."
     else "APPROVED. The Council agrees this is a safe and wise purchase.") ≠ "" := by
  split_ifs <;> decide

theorem ls_entries (e : List TurnEntry) (c : Bool) (r t f : ℕ) :
    (LoopState.mk e c r t f).entries = e := rfl

theorem ls_consensus (e : List TurnEntry) (c : Bool) (r t f : ℕ) :
    (LoopState.mk e c r t f).consensus_reached = c := rfl

theorem ls_round (e : List TurnEntry) (c : Bool) (r t f : ℕ) :
    (LoopState.mk e c r t f).round_count = r := rfl

theorem ls_turn (e : List TurnEntry) (c : Bool) (r t f : ℕ) :
    (LoopState.mk e c r t f).turn_no = t := rfl

theorem ls_checks (e : List TurnEntry) (c : Bool) (r t f : ℕ) :
    (LoopState.mk e c r t f).referee_checks = f := rfl

theorem debate_loop_round_le (gen : ℕ → ℕ → KickoffOutcome) (triv : Bool) (safety : String) :
    ∀ (fuel rc tn : ℕ),
      (debate_loop gen triv safety rc tn fuel).round_count ≤ rc + fuel := by
  intro fuel
  induction fuel with
  | zero => intro rc tn; simp [debate_loop]
  | succ fuel ih =>
    intro rc tn
    simp only [debate_loop]
    by_cases hc1 : (!(safety == "DANGEROUS" || triv) && decide (rc + 1 < 2)) = true
    · rw [if_pos hc1, ls_round]
      have := ih (rc + 1) (tn + 2)
      omega
    · rw [if_neg hc1]
      by_cases hc2 : strIn "WINNER" (upperStr (produce gen (tn + 2) "referee" 1)) = true
      · rw [if_pos hc2, ls_round]
        omega
      · rw [if_neg hc2, ls_round]
        have := ih (rc + 1) (tn + 3)
        omega

theorem debate_loop_rounds_exact (gen : ℕ → ℕ → KickoffOutcome) (triv : Bool)
    (safety : String) :
    ∀ (fuel rc tn : ℕ),
      (debate_loop gen triv safety rc tn fuel).consensus_reached = false →
      (debate_loop gen triv safety rc tn fuel).round_count = rc + fuel := by
  intro fuel
  induction fuel with
  | zero => intro rc tn _; simp [debate_loop]
  | succ fuel ih =>
    intro rc tn h
    simp only [debate_loop] at h ⊢
    by_cases hc1 : (!(safety == "DANGEROUS" || triv) && decide (rc + 1 < 2)) = true
    · rw [if_pos hc1] at h ⊢
      rw [ls_round, ls_consensus] at *
      rw [ih (rc + 1) (tn + 2) h]
      omega
    · rw [if_neg hc1] at h ⊢
      by_cases hc2 : strIn "WINNER" (upperStr (produce gen (tn + 2) "referee" 1)) = true
      · rw [if_pos hc2] at h
        rw [ls_consensus] at h
        exact absurd h (by simp)
      · rw [if_neg hc2] at h ⊢
        rw [ls_round, ls_consensus] at *
        rw [ih (rc + 1) (tn + 3) h]
        omega

theorem debate_loop_no_winner (gen : ℕ → ℕ → KickoffOutcome) (triv : Bool) (safety : String)
    (hgen : ∀ n, strIn "WINNER" (upperStr (produce gen n "referee" 1)) = false) :
    ∀ (fuel rc tn : ℕ),
      (debate_loop gen triv safety rc tn fuel).consensus_reached = false := by
  intro fuel
  induction fuel with
  | zero => intro rc tn; rfl
  | succ fuel ih =>
    intro rc tn
    simp only [debate_loop]
    by_cases hc1 : (!(safety == "DANGEROUS" || triv) && decide (rc + 1 < 2)) = true
    · rw [if_pos hc1, ls_consensus]
      exact ih (rc + 1) (tn + 2)
    · rw [if_neg hc1, if_neg (by rw [hgen (tn + 2)]; simp), ls_consensus]
      exact ih (rc + 1) (tn + 3)

theorem debate_loop_spec (gen : ℕ → ℕ → KickoffOutcome) (triv : Bool) (safety : String) :
    ∀ (fuel rc tn : ℕ),
      rc ≤ (debate_loop gen triv safety rc tn fuel).round_count
      ∧ countAgent (debate_loop gen triv safety rc tn fuel).entries "miser"
          = (debate_loop gen triv safety rc tn fuel).round_count - rc
      ∧ countAgent (debate_loop gen triv safety rc tn fuel).entries "visionary"
          = (debate_loop gen triv safety rc tn fuel).round_count - rc
      ∧ countAgent (debate_loop gen triv safety rc tn fuel).entries "referee" = 0
      ∧ countAgent (debate_loop gen triv safety rc tn fuel).entries "twin"
          = (if (debate_loop gen triv safety rc tn fuel).consensus_reached then 1 else 0)
      ∧ ((debate_loop gen triv safety rc tn fuel).entries.all fun e => e.content != "") = true
      ∧ ((debate_loop gen triv safety rc tn fuel).consensus_reached = true →
          ∃ l s, (debate_loop gen triv safety rc tn fuel).entries = l ++ [⟨"twin", s⟩]
            ∧ s ≠ "") := by
  intro fuel
  induction fuel with
  | zero =>
    intro rc tn
    refine ⟨le_refl rc, ?_, ?_, ?_, ?_, ?_, ?_⟩ <;> simp [debate_loop, countAgent]
  | succ fuel ih =>
    intro rc tn
    simp only [debate_loop]
    by_cases hc1 : (!(safety == "DANGEROUS" || triv) && decide (rc + 1 < 2)) = true
    · -- round 1, referee skipped
      rw [if_pos hc1]
      simp only [ls_entries, ls_consensus, ls_round, ls_turn, ls_checks]
      obtain ⟨ihle, ihm, ihv, ihr, iht, ihne, ihlast⟩ := ih (rc + 1) (tn + 2)
      refine ⟨by omega, ?_, ?_, ?_, ?_, ?_, ?_⟩
      · simp only [countAgent, List.countP_append] at ihm ⊢
        simp [List.countP_cons, ihm]
        omega
      · simp only [countAgent, List.countP_append] at ihv ⊢
        simp [List.countP_cons, ihv]
        omega
      · simp only [countAgent, List.countP_append] at ihr ⊢
        simp [List.countP_cons, ihr]
      · simp only [countAgent, List.countP_append] at iht ⊢
        simp [List.countP_cons, iht]
      · simp only [List.all_append] at ihne ⊢
        simp [ihne, bne_iff_ne, produce_ne]
      · intro hc
        obtain ⟨l, s, hl, hs⟩ := ihlast hc
        exact ⟨_ ++ l, s, by rw [hl, List.append_assoc], hs⟩
    · rw [if_neg hc1]
      by_cases hc2 : strIn "WINNER" (upperStr (produce gen (tn + 2) "referee" 1)) = true
      · -- referee declares a winner
        rw [if_pos hc2]
        simp only [ls_entries, ls_consensus, ls_round, ls_turn, ls_checks]
        refine ⟨by omega, ?_, ?_, ?_, ?_, ?_, ?_⟩
        · simp [countAgent, List.countP_append, List.countP_cons]
        · simp [countAgent, List.countP_append, List.countP_cons]
        · simp [countAgent, List.countP_append, List.countP_cons]
        · simp [countAgent, List.countP_append, List.countP_cons]
        · simp [bne_iff_ne, produce_ne, final_text_ne]
        · intro _
          exact ⟨_, _, rfl, final_text_ne _⟩
      · -- referee says CONTINUE
        rw [if_neg hc2]
        simp only [ls_entries, ls_consensus, ls_round, ls_turn, ls_checks]
        obtain ⟨ihle, ihm, ihv, ihr, iht, ihne, ihlast⟩ := ih (rc + 1) (tn + 3)
        refine ⟨by omega, ?_, ?_, ?_, ?_, ?_, ?_⟩
        · simp only [countAgent, List.countP_append] at ihm ⊢
          simp [List.countP_cons, ihm]
          omega
        · simp only [countAgent, List.countP_append] at ihv ⊢
          simp [List.countP_cons, ihv]
          omega
        · simp only [countAgent, List.countP_append] at ihr ⊢
          simp [List.countP_cons, ihr]
        · simp only [countAgent, List.countP_append] at iht ⊢
          simp [List.countP_cons, iht]
        · simp only [List.all_append] at ihne ⊢
          simp [ihne, bne_iff_ne, produce_ne]
        · intro hc
          obtain ⟨l, s, hl, hs⟩ := ihlast hc
          exact ⟨_ ++ l, s, by rw [hl, List.append_assoc], hs⟩

/-- The loop state `run_fincil_crew` ends with. -/
theorem crew_loop_eq (gen : ℕ → ℕ → KickoffOutcome) (q : String) (p : Profile) (a : ℚ)
    (ac : Option String) (ia : Bool) :
    (run_fincil_crew_run gen q p a ac ia).loop
      = debate_loop gen (finance_engine q p a).is_trivial (finance_engine q p a).emi_safety
          0 0 (if (finance_engine q p a).is_trivial then 2 else 5) := rfl

/-- The returned transcript: the loop's entries, plus the Twin tie-breaker
when no consensus was reached. -/
theorem crew_transcript_eq (gen : ℕ → ℕ → KickoffOutcome) (q : String) (p : Profile) (a : ℚ)
    (ac : Option String) (ia : Bool) :
    run_fincil_crew gen q p a ac ia
      = (if ((run_fincil_crew_run gen q p a ac ia).loop).consensus_reached
         then ((run_fincil_crew_run gen q p a ac ia).loop).entries
         else ((run_fincil_crew_run gen q p a ac ia).loop).entries
            ++ [⟨"twin",
                 produce gen ((run_fincil_crew_run gen q p a ac ia).loop).turn_no "twin" 5⟩]) :=
  rfl

/-- The transcript-shape invariant shared by the C1 and C2 theorems. -/
theorem crew_transcript_spec (gen : ℕ → ℕ → KickoffOutcome) (q : String) (p : Profile)
    (a : ℚ) (ac : Option String) (ia : Bool) :
    (run_fincil_crew gen q p a ac ia).isEmpty = false
    ∧ ((run_fincil_crew gen q p a ac ia).all fun e => e.content != "") = true
    ∧ (∃ l s, run_fincil_crew gen q p a ac ia = l ++ [⟨"twin", s⟩] ∧ s ≠ "")
    ∧ countAgent (run_fincil_crew gen q p a ac ia) "miser"
        = (run_fincil_crew_run gen q p a ac ia).loop.round_count
    ∧ countAgent (run_fincil_crew gen q p a ac ia) "visionary"
        = (run_fincil_crew_run gen q p a ac ia).loop.round_count
    ∧ countAgent (run_fincil_crew gen q p a ac ia) "twin" = 1
    ∧ countAgent (run_fincil_crew gen q p a ac ia) "referee" = 0 := by
  obtain ⟨hle, hm, hv, hr, ht, hne, hlast⟩ :=
    debate_loop_spec gen (finance_engine q p a).is_trivial (finance_engine q p a).emi_safety
      (if (finance_engine q p a).is_trivial then 2 else 5) 0 0
  rw [crew_transcript_eq, crew_loop_eq]
  by_cases hcons :
      (debate_loop gen (finance_engine q p a).is_trivial (finance_engine q p a).emi_safety
        0 0 (if (finance_engine q p a).is_trivial then 2 else 5)).consensus_reached = true
  · rw [if_pos hcons]
    rw [if_pos hcons] at ht
    obtain ⟨l, s, hl, hs⟩ := hlast hcons
    refine ⟨by rw [hl]; simp, hne, ⟨l, s, hl, hs⟩, by simpa using hm, by simpa using hv,
      ht, hr⟩
  · rw [if_neg hcons]
    rw [if_neg hcons] at ht
    refine ⟨by simp, ?_, ?_, ?_, ?_, ?_, ?_⟩
    · simp only [List.all_append, List.all_cons, List.all_nil]
      simp [hne, bne_iff_ne, produce_ne]
    · exact ⟨_, _, rfl, produce_ne _ _ _ _⟩
    · simp only [countAgent, List.countP_append] at hm ⊢
      simp [List.countP_cons, hm]
    · simp only [countAgent, List.countP_append] at hv ⊢
      simp [List.countP_cons, hv]
    · simp only [countAgent, List.countP_append] at ht ⊢
      simp [List.countP_cons, ht]
    · simp only [countAgent, List.countP_append] at hr ⊢
      simp [List.countP_cons, hr]

/-- **C1 (amended).**  For every oracle of generation outcomes — including
total backend failure at every call — `run_fincil_crew` returns a non-empty
transcript whose entries are all non-empty, with exactly one Miser entry
and one Visionary entry per executed round and exactly one "twin" entry,
which is the last; the referee, although consulted, never contributes a
transcript entry. -/
theorem C1_transcript_integrity (gen : ℕ → ℕ → KickoffOutcome) (q : String) (p : Profile)
    (a : ℚ) (ac : Option String) (ia : Bool) :
    (run_fincil_crew gen q p a ac ia).isEmpty = false
    ∧ ((run_fincil_crew gen q p a ac ia).all fun e => e.content != "") = true
    ∧ (∃ l s, run_fincil_crew gen q p a ac ia = l ++ [⟨"twin", s⟩] ∧ s ≠ "")
    ∧ countAgent (run_fincil_crew gen q p a ac ia) "miser"
        = (run_fincil_crew_run gen q p a ac ia).loop.round_count
    ∧ countAgent (run_fincil_crew gen q p a ac ia) "visionary"
        = (run_fincil_crew_run gen q p a ac ia).loop.round_count
    ∧ countAgent (run_fincil_crew gen q p a ac ia) "twin" = 1
    ∧ countAgent (run_fincil_crew gen q p a ac ia) "referee" = 0 :=
  crew_transcript_spec gen q p a ac ia

/-- **C1 counterexample.**  Under total backend failure on a non-trivial
purchase the referee is consulted four times, yet the transcript contains
no entry authored by the referee — so the transcript does not contain "one
entry per executed turn (… referee when consulted …)" as claimed. -/
theorem C1_cex_referee_turn_missing :
    (run_fincil_crew_run genFail "buy a car" pRich 20000 none false).loop.referee_checks = 4
      ∧ countAgent (run_fincil_crew genFail "buy a car" pRich 20000 none false) "referee"
          = 0 := by
  have hrole : strIn "student" (lowerStr (pRich.role.getD "General")) = false := by decide
  have hsur : (finance_engine "buy a car" pRich 20000).surplus = 100000 := by
    rw [fe_surplus, fe_raw_surplus, hrole]
    simp [pRich]
  have htriv : (finance_engine "buy a car" pRich 20000).is_trivial = false := by
    rw [fe_is_trivial, hsur]
    norm_num
  have hcash : (finance_engine "buy a car" pRich 20000).can_pay_cash = true := by
    rw [fe_can_pay_cash, hsur]
    norm_num
  have hsafe : (finance_engine "buy a car" pRich 20000).emi_safety = "SAFE" := by
    rw [fe_emi_safety, htriv, hcash]
    simp [classify_math]
  constructor
  · rw [crew_loop_eq, htriv, hsafe]
    decide
  · rw [crew_transcript_eq, crew_loop_eq, htriv, hsafe]
    decide

/-- **C2.**  The debate loop always terminates within 5 rounds; with a
trivial classification it executes at most 2 rounds; with a non-trivial
classification and a referee that never declares a winner it executes
exactly 5 rounds, reaches no consensus, and the Judge ("twin") is invoked
exactly once, as the final transcript entry. -/
theorem C2_round_bounds (gen : ℕ → ℕ → KickoffOutcome) (q : String) (p : Profile)
    (a : ℚ) (ac : Option String) (ia : Bool) :
    ((run_fincil_crew_run gen q p a ac ia).loop.round_count ≤ 5)
    ∧ ((finance_engine q p a).is_trivial = true →
        (run_fincil_crew_run gen q p a ac ia).loop.round_count ≤ 2)
    ∧ ((finance_engine q p a).is_trivial = false →
        (∀ n, strIn "WINNER" (upperStr (produce gen n "referee" 1)) = false) →
        (run_fincil_crew_run gen q p a ac ia).loop.round_count = 5
          ∧ (run_fincil_crew_run gen q p a ac ia).loop.consensus_reached = false
          ∧ countAgent (run_fincil_crew gen q p a ac ia) "twin" = 1
          ∧ ∃ l s, run_fincil_crew gen q p a ac ia = l ++ [⟨"twin", s⟩]) := by
  refine ⟨?_, ?_, ?_⟩
  · rw [crew_loop_eq]
    have h := debate_loop_round_le gen (finance_engine q p a).is_trivial
      (finance_engine q p a).emi_safety (if (finance_engine q p a).is_trivial then 2 else 5)
      0 0
    split_ifs at h ⊢ <;> omega
  · intro htriv
    rw [crew_loop_eq, htriv]
    have h := debate_loop_round_le gen (finance_engine q p a).is_trivial
      (finance_engine q p a).emi_safety 2 0 0
    rw [htriv] at h
    simpa using h
  · intro htriv hgen
    have hnc := debate_loop_no_winner gen (finance_engine q p a).is_trivial
      (finance_engine q p a).emi_safety hgen
      (if (finance_engine q p a).is_trivial then 2 else 5) 0 0
    have hrc := debate_loop_rounds_exact gen (finance_engine q p a).is_trivial
      (finance_engine q p a).emi_safety (if (finance_engine q p a).is_trivial then 2 else 5)
      0 0 hnc
    obtain ⟨_, _, _, _, _, _, _⟩ := crew_transcript_spec gen q p a ac ia
    refine ⟨?_, ?_, ?_, ?_⟩
    · rw [crew_loop_eq, htriv] at *
      rw [htriv] at hrc
      simpa using hrc
    · rw [crew_loop_eq]
      exact hnc
    · exact ‹countAgent (run_fincil_crew gen q p a ac ia) "twin" = 1›
    · obtain ⟨l, s, hl, _⟩ := ‹∃ l s, run_fincil_crew gen q p a ac ia = l ++ [⟨"twin", s⟩] ∧ s ≠ ""›
      exact ⟨l, s, hl⟩

theorem pGeneral0_nontrivial_20000 :
    (finance_engine "buy a car" pGeneral0 20000).is_trivial = false := by
  rw [fe_is_trivial, pGeneral0_surplus]
  norm_num

theorem pGeneral0_trivial_500 :
    (finance_engine "coffee" pGeneral0 500).is_trivial = true := by
  rw [fe_is_trivial, pGeneral0_surplus]
  norm_num

theorem genFail_referee_no_winner :
    ∀ n, strIn "WINNER" (upperStr (produce genFail n "referee" 1)) = false :=
  fun _ => rfl

theorem C2_witness :
    (run_fincil_crew_run genFail "buy a car" pGeneral0 20000 none false).loop.round_count = 5
    ∧ (run_fincil_crew_run genFail "buy a car" pGeneral0 20000 none false).loop.consensus_reached
        = false
    ∧ countAgent (run_fincil_crew genFail "buy a car" pGeneral0 20000 none false) "twin" = 1
    ∧ (∃ l s, run_fincil_crew genFail "buy a car" pGeneral0 20000 none false
          = l ++ [⟨"twin", s⟩])
    ∧ (run_fincil_crew_run genFail "coffee" pGeneral0 500 none false).loop.round_count ≤ 2 :=
  have h5 := (C2_round_bounds genFail "buy a car" pGeneral0 20000 none false).2.2
    pGeneral0_nontrivial_20000 genFail_referee_no_winner
  ⟨h5.1, h5.2.1, h5.2.2.1, h5.2.2.2,
   (C2_round_bounds genFail "coffee" pGeneral0 500 none false).2.1 pGeneral0_trivial_500⟩

end Fincil
